import Mathlib

/-!
Verification of the clause segmentation and rule-based risk scoring core of
the contract-risk-analysis repository.

The Python sources are shallowly embedded as executable Lean definitions:

* `src/backend/llm/risk_scorer.py` — `RiskScorer.score_clause`,
  `RiskScorer.score_contract`, `RiskScorer._get_risk_patterns`
  (`get_risk_patterns` here).
* `src/backend/nlp/extractors/clause_extractor.py` — `ClauseExtractor.extract`,
  `_process_numbered_sections`, `_process_paragraphs`, `_classify_clause`
  and the two `re.split` calls, which are modelled by explicit deterministic
  matchers faithful to the backtracking semantics of the concrete patterns.

Python strings are `String` (lists of characters); Python `int` scores are
`Nat`; the float mean with `round(x, 2)` is modelled on exact rationals with
round-half-to-even; code that can raise is embedded in `Except Unit`.
Dictionary records become structures; the in-place mutation of the clause
list performed by `score_contract` is modelled by returning the updated list
alongside the result record.
-/

/-! ## String helpers (Python primitives) -/

/-- Python whitespace for `\s`, `str.strip()` and `str.split()` (ASCII part). -/
def isPySpace (c : Char) : Bool :=
  c = ' ' || c = '\t' || c = '\n' || c = '\r' || c = '\x0b' || c = '\x0c'

/-- `str.strip()` on the character list: drop whitespace from both ends. -/
def stripChars (cs : List Char) : List Char :=
  ((cs.dropWhile isPySpace).reverse.dropWhile isPySpace).reverse

/-- Python `str.strip()`. -/
def pyStrip (s : String) : String := ⟨stripChars s.data⟩

/-- Python `str.lower()` (ASCII case folding; all keyword tables are ASCII
or Devanagari, where lowercasing is the identity). -/
def lowerStr (s : String) : String := ⟨s.data.map Char.toLower⟩

/-- Does `cs` start with `needle`? (Helper for substring containment.) -/
def matchesAt : List Char → List Char → Bool
  | [], _ => true
  | _ :: _, [] => false
  | a :: as, b :: bs => a == b && matchesAt as bs

/-- Python substring test `needle in hay` on character lists. -/
def hasSubChars (needle : List Char) : List Char → Bool
  | [] => matchesAt needle []
  | b :: bs => matchesAt needle (b :: bs) || hasSubChars needle bs

/-- Python substring test `needle in hay` on strings. -/
def hasSub (hay needle : String) : Bool := hasSubChars needle.data hay.data

/-- Python `s.startswith(pre)`. -/
def startsWithStr (s pre : String) : Bool := matchesAt pre.data s.data

/-- Python slicing `s[:n]` (by characters). -/
def strTake (s : String) (n : Nat) : String := ⟨s.data.take n⟩

/-- Word counter for Python `len(text.split())`: number of maximal
non-whitespace runs. The flag tracks whether we are inside a run. -/
def countWordsAux : List Char → Bool → Nat
  | [], _ => 0
  | c :: rest, inWord =>
    if isPySpace c then countWordsAux rest false
    else (if inWord then 0 else 1) + countWordsAux rest true

/-- Python `len(text.split())`. -/
def word_count (s : String) : Nat := countWordsAux s.data false

/-- Python `text.replace(chr(13) ++ chr(10), chr(10))`: left-to-right,
non-overlapping replacement of every CRLF by LF. -/
def replaceCRLF : List Char → List Char
  | '\r' :: '\n' :: rest => '\n' :: replaceCRLF rest
  | c :: rest => c :: replaceCRLF rest
  | [] => []

/-! ## Rounding model for Python `round(x, 2)`

`score_contract` returns `round(composite_score, 2)`. The composite is the
mean of integer clause scores; we model it as an exact rational and `round`
as round-half-to-even at two decimal places. CPython rounds by the exact
binary value of the `float` quotient, so at a two-decimal tie whose exact
value is not dyadic the two disagree: `round(35/200, 2)` is `0.17` in
CPython (the nearest double to 0.175 lies just below the tie) but `0.18`
under exact-rational half-to-even. Away from exact ties the chosen decimal
is the same for every clause count up to about `4.5e11` (the distance from
a non-tie mean `s/n` to the nearest rounding boundary is at least
`1/(200*n)`, while the double quotient is within `100 * 2^-53` of `s/n`),
so theorems about the composite exclude tie means and bound the count. -/

/-- Round a rational to the nearest integer, ties to even (Python `round`). -/
def roundHalfEven (q : ℚ) : ℤ :=
  let f : ℤ := ⌊q⌋
  let r : ℚ := q - (f : ℚ)
  if r < 1 / 2 then f
  else if 1 / 2 < r then f + 1
  else if f % 2 = 0 then f else f + 1

/-- Python `round(q, 2)` on exact rationals. Agrees with CPython on the
choice of decimal except at non-dyadic two-decimal ties (see above). -/
def round2 (q : ℚ) : ℚ := ((roundHalfEven (q * 100) : ℤ) : ℚ) / 100

/-! ## Risk scorer data model (`risk_scorer.py`) -/

/-- One entry of the `_get_risk_patterns` table. -/
structure RiskPattern where
  name : String
  keywords : List String
  weight : Nat
  description : String
deriving DecidableEq, Repr

/-- A flag record appended by `score_clause` for a high-impact pattern. -/
structure RiskFlag where
  type : String
  description : String
deriving DecidableEq, Repr

/-- Result record of `score_clause`. -/
structure ScoreResult where
  score : Nat
  level : String
  flags : List RiskFlag
deriving DecidableEq, Repr

/-- A clause record as consumed and mutated by `score_contract`: the `text`
key it reads, any other dict entries (opaque to the scorer), and the
`risk_score` / `risk_level` keys it writes (absent before scoring). -/
structure ClauseRec where
  text : String
  others : List (String × String) := []
  risk_score : Option Nat := none
  risk_level : Option String := none
deriving DecidableEq, Repr

/-- Result record of `score_contract`. -/
structure ContractResult where
  composite_score : ℚ
  risk_level : String
  flags : List RiskFlag
  clause_count : Nat
  high_risk_clauses : Nat
deriving DecidableEq, Repr

/-- `RiskScorer.HIGH_RISK_THRESHOLD`. -/
def HIGH_RISK_THRESHOLD : Nat := 70

/-- `RiskScorer.MEDIUM_RISK_THRESHOLD`. -/
def MEDIUM_RISK_THRESHOLD : Nat := 40

/-- `RiskScorer._get_risk_patterns`: the fixed pattern table, in source
(insertion) order. -/
def get_risk_patterns : List RiskPattern :=
  [ { name := "unilateral_termination",
      keywords := ["may terminate", "right to terminate", "terminate at will",
                   "terminate without cause", "sole discretion"],
      weight := 30,
      description := "One-sided termination rights (may be void per Indian Contract Act if arbitrary)" },
    { name := "uncapped_liability",
      keywords := ["unlimited liability", "no limit", "without limitation",
                   "liable for all", "indemnify against all"],
      weight := 35,
      description := "Unlimited liability exposure" },
    { name := "auto_renewal_lock_in",
      keywords := ["automatically renew", "auto-renewal", "lock-in period",
                   "cannot terminate during"],
      weight := 20,
      description := "Auto-renewal or Lock-in period (check if > 3 years)" },
    { name := "penalty_high",
      keywords := ["penalty", "liquidated damages", "forfeit", "pay as damages"],
      weight := 25,
      description := "Penalty clause (Indian courts distinguish between reasonable compensation and penalty)" },
    { name := "non_compete_excessive",
      keywords := ["non-compete", "shall not compete", "restrictive covenant",
                   "after termination"],
      weight := 30,
      description := "Post-termination non-compete (Often void in India under Sec 27 unless reasonable)" },
    { name := "ip_transfer",
      keywords := ["transfer of intellectual property", "ip rights transfer",
                   "ownership of all work", "work for hire"],
      weight := 25,
      description := "Intellectual property transfer" },
    { name := "foreign_jurisdiction",
      keywords := ["courts of singapore", "courts of london",
                   "exclusive jurisdiction of", "outside india"],
      weight := 40,
      description := "Foreign Jurisdiction (High cost/risk for Indian SME)" },
    { name := "arbitration_cost",
      keywords := ["arbitration in london", "singapore international arbitration",
                   "icc rules"],
      weight := 35,
      description := "High-cost International Arbitration" },
    { name := "ambiguous_terms",
      keywords := ["reasonable", "best efforts", "as soon as possible", "appropriate"],
      weight := 10,
      description := "Ambiguous or vague terms" } ]

/-- Loop body of `score_clause`: one iteration over the pattern table,
accumulating the running score and the flag list. -/
def clause_pattern_step (clause_lower : String) (acc : Nat × List RiskFlag)
    (p : RiskPattern) : Nat × List RiskFlag :=
  if p.keywords.any (fun k => hasSub clause_lower k) then
    (acc.1 + p.weight,
     if 25 ≤ p.weight then
       acc.2 ++ [{ type := p.name, description := p.description }]
     else acc.2)
  else acc

/-- `RiskScorer.score_clause`. The `contract_type` argument is accepted and
unused by the pattern scoring, as in the source. -/
def score_clause (clause_text : String) (contract_type : String) : ScoreResult :=
  let clause_lower := lowerStr clause_text
  let acc := get_risk_patterns.foldl (clause_pattern_step clause_lower) (0, [])
  let score := min acc.1 100
  { score := score,
    level :=
      if HIGH_RISK_THRESHOLD ≤ score then "high"
      else if MEDIUM_RISK_THRESHOLD ≤ score then "medium"
      else "low",
    flags := acc.2 }

/-- Does pattern `p` fire on clause text `t` (any keyword a case-insensitive
substring)? -/
def pattern_fires (t : String) (p : RiskPattern) : Bool :=
  p.keywords.any (fun k => hasSub (lowerStr t) k)

/-- Loop body of `score_contract`: scores one clause, mutates its record,
and accumulates (clause_scores, risk_flags, mutated clause list). -/
def contract_step (contract_type : String)
    (acc : List Nat × List RiskFlag × List ClauseRec) (clause : ClauseRec) :
    List Nat × List RiskFlag × List ClauseRec :=
  let risk_result := score_clause clause.text contract_type
  (acc.1 ++ [risk_result.score],
   acc.2.1 ++ (if risk_result.level == "high" then risk_result.flags else []),
   acc.2.2 ++ [{ clause with risk_score := some risk_result.score,
                             risk_level := some risk_result.level }])

/-- `RiskScorer.score_contract`. Returns the result record together with
the post-call state of the clause list (the source mutates it in place). -/
def score_contract (contract_type : String) (clauses : List ClauseRec) :
    ContractResult × List ClauseRec :=
  let acc := clauses.foldl (contract_step contract_type) ([], [], [])
  let clause_scores := acc.1
  let risk_flags := acc.2.1
  let updated := acc.2.2
  let composite_score : ℚ :=
    if clause_scores.isEmpty then 0
    else (clause_scores.sum : ℚ) / (clause_scores.length : ℚ)
  ({ composite_score := round2 composite_score,
     risk_level :=
       if (HIGH_RISK_THRESHOLD : ℚ) ≤ composite_score then "high"
       else if (MEDIUM_RISK_THRESHOLD : ℚ) ≤ composite_score then "medium"
       else "low",
     flags := risk_flags,
     clause_count := clauses.length,
     high_risk_clauses := (updated.filter (fun c => c.risk_level == some "high")).length },
   updated)

/-! ## Clause extractor data model (`clause_extractor.py`) -/

/-- A clause record as built by `_process_numbered_sections` /
`_process_paragraphs`, before `extract` adds id, type and word count. -/
structure RawClause where
  header : String
  text : String
  full_text : String
deriving DecidableEq, Repr

/-- A fully populated clause record returned by `extract`. -/
structure Clause where
  header : String
  text : String
  full_text : String
  id : String
  type : String
  word_count : Nat
deriving DecidableEq, Repr

/-- `ClauseExtractor.obligation_keywords`. -/
def obligation_keywords : List String :=
  ["shall", "must", "required to", "obligated to", "agrees to",
   "करना होगा", "बाध्य है", "अनिवार्य", "जिम्मेदारी"]

/-- `ClauseExtractor.right_keywords`. -/
def right_keywords : List String :=
  ["may", "entitled to", "has the right", "can", "permitted to",
   "अधिकार है", "सकता है", "अनुमति", "स्वतंत्र है"]

/-- `ClauseExtractor.prohibition_keywords`. -/
def prohibition_keywords : List String :=
  ["shall not", "must not", "prohibited from", "may not", "forbidden to",
   "नहीं करेगा", "वर्जित", "निषेध", "प्रतिबंधित", "मना है"]

/-- `ClauseExtractor.condition_keywords`. -/
def condition_keywords : List String :=
  ["if", "provided that", "subject to", "in the event",
   "यदि", "बशर्ते", "की स्थिति में", "अधीन"]

/-- `ClauseExtractor.definition_keywords`. -/
def definition_keywords : List String :=
  ["means", "refers to", "defined as", "definition",
   "का अर्थ", "तत्पर्य", "परिभाषा"]

/-- `ClauseExtractor._classify_clause`: ordered first-match keyword scan
over the lowercased text. -/
def classify_clause (text : String) : String :=
  let text_lower := lowerStr text
  if prohibition_keywords.any (fun k => hasSub text_lower k) then "prohibition"
  else if obligation_keywords.any (fun k => hasSub text_lower k) then "obligation"
  else if right_keywords.any (fun k => hasSub text_lower k) then "right"
  else if condition_keywords.any (fun k => hasSub text_lower k) then "condition"
  else if definition_keywords.any (fun k => hasSub text_lower k) then "definition"
  else "general"

/-! ## Deterministic model of the two `re.split` calls

The header pattern is (with case-insensitive flag)
`\n(\d+(\.\d+)*\.?\s+[a-z][a-z0-9\s\(\)\-\,]+|article\s+\d+)\n`
and the paragraph separator is `\n\s*\n`. For these concrete patterns the
backtracking search is deterministic and is implemented directly: every
quantifier takes its maximal run, except the final run before a literal
newline, which backtracks to the last newline inside the run. These
matchers were differential-tested against CPython `re.split`. -/

/-- Characters matched by the title class `[a-z0-9\s\(\)\-\,]` under the
case-insensitive flag. -/
def isClassChar (c : Char) : Bool :=
  c.isAlpha || c.isDigit || isPySpace c || c = '(' || c = ')' || c = '-' || c = ','

/-- Greatest index `j` with `cs[j] = newline`, if any. -/
def lastNlIdx : List Char → Option Nat
  | [] => none
  | c :: rest =>
    match lastNlIdx rest with
    | some j => some (j + 1)
    | none => if c = '\n' then some 0 else none

/-- Fueled parser for `(\.\d+)*`: returns (consumed length, capture of the
last repetition if any). The fuel only bounds recursion depth; with fuel at
least the input length it is never exhausted. -/
def parseRepsF : Nat → List Char → Nat × Option (List Char)
  | 0, _ => (0, none)
  | fuel + 1, cs =>
    match cs with
    | '.' :: rest =>
      let ds := rest.takeWhile Char.isDigit
      if ds.length = 0 then (0, none)
      else
        let r := parseRepsF fuel (rest.drop ds.length)
        (1 + ds.length + r.1, some (r.2.getD ('.' :: ds)))
    | _ => (0, none)

/-- `(\.\d+)*` starting at `cs`. -/
def parseReps (cs : List Char) : Nat × Option (List Char) :=
  parseRepsF cs.length cs

/-- First alternative of the header group:
`\d+(\.\d+)*\.?\s+[a-z][a-z0-9\s\(\)\-\,]+` followed by a literal newline.
Input is the text just after the leading newline. Returns
(group-1 capture, group-2 capture, consumed length including the trailing
newline). -/
def tryAltA (t : List Char) : Option (List Char × Option (List Char) × Nat) :=
  let d := (t.takeWhile Char.isDigit).length
  if d = 0 then none
  else
    let t1 := t.drop d
    let r := parseReps t1
    let t2 := t1.drop r.1
    let dt := if t2.head? = some '.' then 1 else 0
    let t3 := t2.drop dt
    let w := (t3.takeWhile isPySpace).length
    if w = 0 then none
    else
      let t4 := t3.drop w
      match t4.head? with
      | some c =>
        if c.isAlpha then
          let t5 := t4.drop 1
          let e := (t5.takeWhile isClassChar).length
          match lastNlIdx (t5.take e) with
          | some j =>
            if 1 ≤ j then
              let len := d + r.1 + dt + w + 1 + j
              some (t.take len, r.2, len + 1)
            else none
          | none => none
        else none
      | none => none

/-- Second alternative of the header group: `article\s+\d+` (case
insensitive) followed by a literal newline. -/
def tryAltB (t : List Char) : Option (List Char × Option (List Char) × Nat) :=
  if (t.take 7).map Char.toLower = "article".data then
    let t1 := t.drop 7
    let w := (t1.takeWhile isPySpace).length
    if w = 0 then none
    else
      let t2 := t1.drop w
      let d := (t2.takeWhile Char.isDigit).length
      if d = 0 then none
      else if (t2.drop d).head? = some '\n' then
        some (t.take (7 + w + d), none, 7 + w + d + 1)
      else none
  else none

/-- Try the full header pattern at the current position: a leading newline,
then alternative A, else alternative B. The returned length counts the
characters consumed after the leading newline. -/
def tryHeaderMatch (cs : List Char) : Option (List Char × Option (List Char) × Nat) :=
  match cs with
  | c :: t =>
    if c = '\n' then
      match tryAltA t with
      | some r => some r
      | none => tryAltB t
    else none
  | [] => none

/-- Fueled scanner for `re.split` with the header pattern: emits the text
between matches and, for every match, the two group captures (`none` for a
non-participating group), exactly as CPython does. With fuel at least the
input length the fuel is never exhausted, and the fuel-0 value agrees with
the terminal case. -/
def headerSplitAuxF : Nat → List Char → List Char → List (Option (List Char))
  | 0, cs, acc => [some (acc.reverse ++ cs)]
  | fuel + 1, cs, acc =>
    match cs with
    | [] => [some acc.reverse]
    | c :: rest =>
      match tryHeaderMatch (c :: rest) with
      | some (g1, g2, m) =>
        some acc.reverse :: some g1 :: g2 :: headerSplitAuxF fuel (rest.drop m) []
      | none => headerSplitAuxF fuel rest (c :: acc)

/-- `re.split(self.clause_header_pattern, text)`. -/
def headerSplit (s : String) : List (Option String) :=
  (headerSplitAuxF s.data.length s.data []).map (fun o => o.map (fun l => (⟨l⟩ : String)))

/-- Try the paragraph separator `\n\s*\n` at the current position. Returns
the number of characters consumed after the leading newline. -/
def tryParaMatch (cs : List Char) : Option Nat :=
  match cs with
  | c :: t =>
    if c = '\n' then
      let w := (t.takeWhile isPySpace).length
      match lastNlIdx (t.take w) with
      | some j => some (j + 1)
      | none => none
    else none
  | [] => none

/-- Fueled scanner for `re.split` with the paragraph separator. -/
def paraSplitAuxF : Nat → List Char → List Char → List (List Char)
  | 0, cs, acc => [acc.reverse ++ cs]
  | fuel + 1, cs, acc =>
    match cs with
    | [] => [acc.reverse]
    | c :: rest =>
      match tryParaMatch (c :: rest) with
      | some m => acc.reverse :: paraSplitAuxF fuel (rest.drop m) []
      | none => paraSplitAuxF fuel rest (c :: acc)

/-- `re.split(r'\n\s*\n', text)`. -/
def paraSplit (s : String) : List String :=
  (paraSplitAuxF s.data.length s.data []).map (fun l => (⟨l⟩ : String))

/-! ## Extractor procedures -/

/-- `ClauseExtractor._process_numbered_sections`. The second argument is the
running `current_header` (initially the literal `General`). A part that is
falsy (`none` from a non-participating group, or the empty string) is
skipped; otherwise the part is stripped and classified. When the stripped
part is empty and shorter than 100 characters, the source evaluates
`part[0]` on an empty string and raises `IndexError`, modelled as
`Except.error ()`. -/
def process_numbered_sections : List (Option String) → String → Except Unit (List RawClause)
  | [], _ => .ok []
  | none :: rest, current_header => process_numbered_sections rest current_header
  | some part :: rest, current_header =>
    if part = "" then process_numbered_sections rest current_header
    else
      let part := pyStrip part
      if part.length < 100 then
        match part.data with
        | [] => .error ()
        | c :: _ =>
          if c.isDigit || startsWithStr (lowerStr part) "article" then
            process_numbered_sections rest part
          else if 20 < part.length then
            (process_numbered_sections rest current_header).map
              (fun cs => { header := current_header, text := part,
                           full_text := current_header ++ "\n" ++ part } :: cs)
          else process_numbered_sections rest current_header
      else if 20 < part.length then
        (process_numbered_sections rest current_header).map
          (fun cs => { header := current_header, text := part,
                       full_text := current_header ++ "\n" ++ part } :: cs)
      else process_numbered_sections rest current_header

/-- `ClauseExtractor._process_paragraphs`. -/
def process_paragraphs (text : String) : List RawClause :=
  (paraSplit text).filterMap (fun para =>
    let para := pyStrip para
    if 20 < para.length then
      some { header := if 50 < para.length then strTake para 50 ++ "..." else para,
             text := para, full_text := para }
    else none)

/-- The CRLF normalisation step of `extract` as a `String` function. -/
def normalizeCRLF (s : String) : String := ⟨replaceCRLF s.data⟩

/-- `ClauseExtractor.extract`: CRLF normalisation, numbered-section split,
paragraph fallback when fewer than 2 clauses were found, then id / type /
word-count assignment. An `IndexError` from the section processing
propagates. -/
def extract (text : String) : Except Unit (List Clause) :=
  let text : String := normalizeCRLF text
  let sections := headerSplit text
  let step1 : Except Unit (List RawClause) :=
    if 2 < sections.length then process_numbered_sections sections "General"
    else .ok []
  step1.map (fun clauses =>
    let clauses := if clauses.length < 2 then process_paragraphs text else clauses
    clauses.enum.map (fun p =>
      { header := p.2.header, text := p.2.text, full_text := p.2.full_text,
        id := "clause_" ++ toString (p.1 + 1),
        type := classify_clause p.2.text,
        word_count := word_count p.2.text }))

/-! ## Concrete inputs used by the claims -/

/-- Scenario A text from the spec (also the body of the repository test
`test_high_risk_detection`, modulo line breaks). -/
def scenarioA : String := "The Company may terminate this agreement at any time without cause and without notice. The Employee shall have unlimited liability for any damages."

/-- A document whose numbered-section split yields a whitespace-only
segment: the text between the two article headings is a single space, and
`re.split` emits it as its own part. -/
def crashText : String := "Intro paragraph for this agreement.\nARTICLE 1\n \nARTICLE 2\nBody of the second article with enough length."

/-! ## Helper lemmas on the scoring fold -/

/-- The score accumulated by the `score_clause` loop is the initial value
plus the sum of the weights of the firing patterns. -/
theorem foldl_pattern_fst (tl : String) (ps : List RiskPattern) :
    ∀ (n : Nat) (fl : List RiskFlag),
    (ps.foldl (clause_pattern_step tl) (n, fl)).1 =
      n + ((ps.filter (fun p => p.keywords.any (fun k => hasSub tl k))).map
            RiskPattern.weight).sum := by
  induction ps with
  | nil => intro n fl; simp
  | cons p ps ih =>
    intro n fl
    simp only [List.foldl_cons, List.filter_cons]
    by_cases h : p.keywords.any (fun k => hasSub tl k)
    · simp only [clause_pattern_step, h, if_true, ih, List.map_cons, List.sum_cons]
      omega
    · simp [clause_pattern_step, h, ih]

/-- Summing pattern weights over a filter is monotone in the predicate. -/
theorem sum_filter_weight_mono (f g : RiskPattern → Bool) :
    ∀ (ps : List RiskPattern), (∀ p ∈ ps, f p = true → g p = true) →
    ((ps.filter f).map RiskPattern.weight).sum ≤
      ((ps.filter g).map RiskPattern.weight).sum := by
  intro ps
  induction ps with
  | nil => intro _; simp
  | cons p ps ih =>
    intro h
    have hs : ∀ q ∈ ps, f q = true → g q = true :=
      fun q hq => h q (List.mem_cons_of_mem _ hq)
    by_cases hf : f p
    · have hg : g p = true := h p (List.mem_cons_self _ _) hf
      simp only [List.filter_cons, hf, hg, if_true, List.map_cons, List.sum_cons]
      exact Nat.add_le_add_left (ih hs) _
    · by_cases hg : g p
      · simp only [List.filter_cons, hf, hg, if_true, Bool.false_eq_true, if_false,
          List.map_cons, List.sum_cons]
        exact le_trans (ih hs) (Nat.le_add_left _ _)
      · simp only [List.filter_cons, hf, hg, Bool.false_eq_true, if_false]
        exact ih hs

/-- Explicit form of the `score_contract` loop: the three accumulators are
the per-clause scores, the flags of high-level clauses, and the mutated
clause records, each appended in clause order. -/
theorem foldl_contract_step (ct : String) (cls : List ClauseRec) :
    ∀ (a : List Nat) (b : List RiskFlag) (c : List ClauseRec),
    cls.foldl (contract_step ct) (a, b, c) =
      (a ++ cls.map (fun cl => (score_clause cl.text ct).score),
       b ++ (cls.map (fun cl =>
               if (score_clause cl.text ct).level == "high"
               then (score_clause cl.text ct).flags else [])).flatten,
       c ++ cls.map (fun cl =>
              { cl with risk_score := some (score_clause cl.text ct).score,
                        risk_level := some (score_clause cl.text ct).level })) := by
  induction cls with
  | nil => intro a b c; simp
  | cons cl cls ih =>
    intro a b c
    simp only [List.foldl_cons, List.map_cons, List.flatten_cons]
    rw [contract_step, ih]
    simp [List.append_assoc]

/-- `round(0, 2) = 0`. -/
theorem round2_zero : round2 0 = 0 := by
  norm_num [round2, roundHalfEven]

/-! ## Claim theorems -/

/-- C7: for every clause text (and contract type), the score returned by
`score_clause` is an integer in the closed interval from 0 to 100. -/
theorem score_clause_score_in_range (t ct : String) :
    0 ≤ (score_clause t ct).score ∧ (score_clause t ct).score ≤ 100 :=
  ⟨Nat.zero_le _, by simp only [score_clause]; exact Nat.min_le_right _ _⟩

/-- C8: `score_contract` on the empty clause list returns exactly
composite_score 0, risk_level low, no flags, zero clause count and zero
high-risk clauses (and does not raise: it is a total function). -/
theorem score_contract_empty (ct : String) :
    (score_contract ct []).1 =
      { composite_score := 0, risk_level := "low", flags := [],
        clause_count := 0, high_risk_clauses := 0 } := by
  have h0 : round2 0 = 0 := round2_zero
  norm_num [score_contract, h0, HIGH_RISK_THRESHOLD, MEDIUM_RISK_THRESHOLD]

/-- C9: if every risk pattern that fires on clause text `t` also fires on
clause text `t'` (as when `t'` extends `t` with additional matching text),
the `score_clause` score of `t'` is at least that of `t`: the clamped sum
of fired weights is monotone under fired-set inclusion. -/
theorem score_clause_monotone (t t' ct : String)
    (h : ∀ p ∈ get_risk_patterns, pattern_fires t p = true → pattern_fires t' p = true) :
    (score_clause t ct).score ≤ (score_clause t' ct).score := by
  have e : ∀ u : String, (score_clause u ct).score =
      min ((get_risk_patterns.filter (fun p => pattern_fires u p)).map
            RiskPattern.weight).sum 100 := by
    intro u
    simp only [score_clause, foldl_pattern_fst, Nat.zero_add]
    rfl
  rw [e t, e t']
  exact min_le_min (sum_filter_weight_mono _ _ _ h) le_rfl

/-- Witness for C9 at a concrete input: the empty-firing text and an
extension firing `uncapped_liability`. -/
theorem score_clause_monotone_witness :
    (∀ p ∈ get_risk_patterns,
        pattern_fires "Payment is due monthly." p = true →
        pattern_fires "Payment is due monthly. The vendor has unlimited liability." p = true) ∧
    (score_clause "Payment is due monthly." "vendor").score ≤
      (score_clause "Payment is due monthly. The vendor has unlimited liability." "vendor").score :=
  ⟨by decide, score_clause_monotone _ _ "vendor" (by decide)⟩

/-- C6: a clause text containing (case-insensitively) both a prohibition
keyword and an obligation keyword is classified as prohibition, because
`_classify_clause` checks the prohibition list first. -/
theorem classify_clause_tie_break (t : String)
    (hp : prohibition_keywords.any (fun k => hasSub (lowerStr t) k) = true)
    (ho : obligation_keywords.any (fun k => hasSub (lowerStr t) k) = true) :
    classify_clause t = "prohibition" := by
  simp [classify_clause, hp]

/-- Witness for C6: a text containing the prohibition keyword
`shall not` and therefore also the obligation keyword `shall`. -/
theorem classify_clause_tie_break_witness :
    (prohibition_keywords.any (fun k => hasSub (lowerStr "The Vendor shall not assign this agreement.") k) = true) ∧
    (obligation_keywords.any (fun k => hasSub (lowerStr "The Vendor shall not assign this agreement.") k) = true) ∧
    classify_clause "The Vendor shall not assign this agreement." = "prohibition" :=
  ⟨by decide, by decide,
   classify_clause_tie_break "The Vendor shall not assign this agreement." (by decide) (by decide)⟩

/-- C1 counterexample: a single clause that fires the high-impact pattern
`penalty_high` but has risk level low (score 25). `score_clause` emits the
flag, yet `score_contract` returns no flags, so the contract flag list is
not the concatenation of all per-clause high-impact flags regardless of
clause level. -/
theorem contract_flags_drop_low_level_clause_cx :
    (score_contract "vendor" [{ text := "A penalty applies to late delivery." }]).1.flags = [] ∧
    (score_clause "A penalty applies to late delivery." "vendor").flags =
      [{ type := "penalty_high",
         description := "Penalty clause (Indian courts distinguish between reasonable compensation and penalty)" }] ∧
    (score_clause "A penalty applies to late delivery." "vendor").level = "low" := by
  refine ⟨?_, by decide, by decide⟩
  decide

/-- C1 amended: the `flags` field of `score_contract` is the concatenation,
in clause order, of the high-impact flags of exactly those clauses whose
own risk level is high (duplicates kept). -/
theorem contract_flags_concat_high_level_clauses (ct : String) (clauses : List ClauseRec) :
    (score_contract ct clauses).1.flags =
      (clauses.map (fun cl =>
        if (score_clause cl.text ct).level == "high"
        then (score_clause cl.text ct).flags else [])).flatten := by
  simp [score_contract, foldl_contract_step]

/-- C4 counterexample: three clauses with scores 10, 0, 0. The exact mean
is 10/3, but `score_contract` returns `round(10/3, 2) = 3.33`, so the
composite score is not the exact arithmetic mean. -/
theorem composite_score_rounding_cx :
    (score_contract "general" [{ text := "reasonable" }, { text := "x" }, { text := "y" }]).1.composite_score ≠
      (((score_clause "reasonable" "general").score : ℚ) +
       ((score_clause "x" "general").score : ℚ) +
       ((score_clause "y" "general").score : ℚ)) / 3 := by
  have h1 : (score_clause "reasonable" "general").score = 10 := by decide
  have h2 : (score_clause "x" "general").score = 0 := by decide
  have h3 : (score_clause "y" "general").score = 0 := by decide
  have hcomp : (score_contract "general"
      [{ text := "reasonable" }, { text := "x" }, { text := "y" }]).1.composite_score =
      round2 ((10 : ℚ) / 3) := by
    simp only [score_contract, foldl_contract_step, h1, h2, h3, List.nil_append,
      List.map_cons, List.map_nil, List.isEmpty_cons, List.sum_cons, List.sum_nil,
      List.length_cons, List.length_nil]
    norm_num
  have hf : ⌊(10 : ℚ) / 3 * 100⌋ = 333 := by
    rw [Int.floor_eq_iff]
    norm_num
  have hval : round2 ((10 : ℚ) / 3) = 333 / 100 := by
    rw [round2, roundHalfEven]
    norm_num [hf]
  rw [hcomp, hval, h1, h2, h3]
  norm_num

/-- C4 amended: the composite score returned by `score_contract` is the
arithmetic mean of the per-clause risk scores rounded to two decimal
places (and 0 for the empty clause list). The hypotheses confine the
statement to where the exact-rational rounding model provably picks the
same decimal as CPython float `round`: `htie` excludes the exact
two-decimal ties (200 times the score sum divisible by the clause count
with odd quotient), where CPython resolves by the binary value of the
`float` quotient, and `hcount` bounds the clause count so the `float`
quotient cannot cross a rounding boundary away from a tie. -/
theorem composite_score_is_rounded_mean (ct : String) (clauses : List ClauseRec)
    (htie : ¬(200 * (clauses.map (fun cl => (score_clause cl.text ct).score)).sum %
                clauses.length = 0 ∧
              200 * (clauses.map (fun cl => (score_clause cl.text ct).score)).sum /
                clauses.length % 2 = 1))
    (hcount : clauses.length ≤ 1000000000) :
    (score_contract ct clauses).1.composite_score =
      if clauses = [] then 0
      else round2 (((clauses.map (fun cl => (score_clause cl.text ct).score)).sum : ℚ) /
                   (clauses.length : ℚ)) := by
  cases clauses with
  | nil => simp [score_contract, round2_zero]
  | cons cl cls =>
    simp only [score_contract, foldl_contract_step, List.nil_append]
    simp [List.length_map]

/-- Witness for C4 at the three concrete clauses of the counterexample:
their mean 10/3 is not a two-decimal tie. -/
theorem composite_score_is_rounded_mean_witness :
    (¬(200 * (([{ text := "reasonable" }, { text := "x" }, { text := "y" }] :
          List ClauseRec).map (fun cl => (score_clause cl.text "general").score)).sum %
            3 = 0 ∧
       200 * (([{ text := "reasonable" }, { text := "x" }, { text := "y" }] :
          List ClauseRec).map (fun cl => (score_clause cl.text "general").score)).sum /
            3 % 2 = 1)) ∧
    (score_contract "general"
        [{ text := "reasonable" }, { text := "x" }, { text := "y" }]).1.composite_score =
      if ([{ text := "reasonable" }, { text := "x" }, { text := "y" }] : List ClauseRec) = [] then 0
      else round2 (((([{ text := "reasonable" }, { text := "x" }, { text := "y" }] :
          List ClauseRec).map (fun cl => (score_clause cl.text "general").score)).sum : ℚ) / 3) :=
  ⟨by decide,
   composite_score_is_rounded_mean "general"
     [{ text := "reasonable" }, { text := "x" }, { text := "y" }] (by decide) (by decide)⟩

/-- C10: `score_contract` rewrites each clause record by setting exactly
the `risk_score` and `risk_level` fields to the per-clause result of
`score_clause`; every other field, the number of clauses and their order
are unchanged (the record update keeps `text` and `others` intact). -/
theorem score_contract_mutates_exactly_risk_fields (ct : String) (clauses : List ClauseRec) :
    (score_contract ct clauses).2 =
      clauses.map (fun cl =>
        { cl with risk_score := some (score_clause cl.text ct).score,
                  risk_level := some (score_clause cl.text ct).level }) := by
  simp [score_contract, foldl_contract_step]

/-- C3: evaluation of the code on the Scenario A text. The classification
is obligation and both high-impact flags are emitted, but the score is 65
(30 + 35, no other pattern fires) and the level is medium — not at least
70 and high as the spec scenario and the repository test assert. -/
theorem scenarioA_evaluation :
    classify_clause scenarioA = "obligation" ∧
    (score_clause scenarioA "employment").score = 65 ∧
    (score_clause scenarioA "employment").level = "medium" ∧
    (score_clause scenarioA "employment").flags =
      [{ type := "unilateral_termination",
         description := "One-sided termination rights (may be void per Indian Contract Act if arbitrary)" },
       { type := "uncapped_liability",
         description := "Unlimited liability exposure" }] := by
  refine ⟨by decide, by decide, by decide, by decide⟩

/-- C2: `extract` is not total: on a document whose numbered-section split
produces a whitespace-only segment, `_process_numbered_sections` strips the
segment to the empty string and evaluates `part[0]`, raising `IndexError`
(modelled as `Except.error ()`). -/
theorem extract_raises_on_whitespace_section :
    extract crashText = .error () := by rfl

/-! ## Single-block segmentation (no newline in the document) -/

/-- CRLF normalisation is the identity on text without newlines. -/
theorem replaceCRLF_no_nl (cs : List Char) (h : ∀ c ∈ cs, c ≠ '\n') :
    replaceCRLF cs = cs := by
  induction cs using replaceCRLF.induct with
  | case1 rest ih =>
    exact absurd rfl (h '\n' (by simp))
  | case2 c rest hne ih =>
    simp only [replaceCRLF]
    exact congrArg (c :: ·) (ih (fun x hx => h x (List.mem_cons_of_mem _ hx)))
  | case3 => rfl

/-- The header pattern cannot match at a position that is not a newline. -/
theorem tryHeaderMatch_no_nl (c : Char) (t : List Char) (h : c ≠ '\n') :
    tryHeaderMatch (c :: t) = none := by
  simp [tryHeaderMatch, h]

/-- The paragraph separator cannot match at a position that is not a
newline. -/
theorem tryParaMatch_no_nl (c : Char) (t : List Char) (h : c ≠ '\n') :
    tryParaMatch (c :: t) = none := by
  simp [tryParaMatch, h]

/-- On newline-free text the header scanner emits the whole text as the
single part. -/
theorem headerSplitAuxF_no_nl (fuel : Nat) :
    ∀ (cs acc : List Char), (∀ c ∈ cs, c ≠ '\n') →
    headerSplitAuxF fuel cs acc = [some (acc.reverse ++ cs)] := by
  induction fuel with
  | zero => intro cs acc _; rfl
  | succ fuel ih =>
    intro cs acc h
    cases cs with
    | nil => simp [headerSplitAuxF]
    | cons c rest =>
      have hc : c ≠ '\n' := h c (List.mem_cons_self _ _)
      rw [headerSplitAuxF, tryHeaderMatch_no_nl c rest hc,
        ih rest (c :: acc) (fun x hx => h x (List.mem_cons_of_mem _ hx))]
      simp

/-- On newline-free text the paragraph scanner emits the whole text as the
single part. -/
theorem paraSplitAuxF_no_nl (fuel : Nat) :
    ∀ (cs acc : List Char), (∀ c ∈ cs, c ≠ '\n') →
    paraSplitAuxF fuel cs acc = [acc.reverse ++ cs] := by
  induction fuel with
  | zero => intro cs acc _; rfl
  | succ fuel ih =>
    intro cs acc h
    cases cs with
    | nil => simp [paraSplitAuxF]
    | cons c rest =>
      have hc : c ≠ '\n' := h c (List.mem_cons_self _ _)
      rw [paraSplitAuxF, tryParaMatch_no_nl c rest hc,
        ih rest (c :: acc) (fun x hx => h x (List.mem_cons_of_mem _ hx))]
      simp

/-- `re.split` with the header pattern returns the whole newline-free text
as its only section. -/
theorem headerSplit_no_nl (s : String) (h : ∀ c ∈ s.data, c ≠ '\n') :
    headerSplit s = [some s] := by
  rw [headerSplit, headerSplitAuxF_no_nl s.data.length s.data [] h]
  rfl

/-- `re.split` with the paragraph separator returns the whole newline-free
text as its only paragraph. -/
theorem paraSplit_no_nl (s : String) (h : ∀ c ∈ s.data, c ≠ '\n') :
    paraSplit s = [s] := by
  rw [paraSplit, paraSplitAuxF_no_nl s.data.length s.data [] h]
  rfl

/-- C5 counterexample: a single unbroken block of exactly 20 characters
after trimming (no headings, no blank lines, no newline at all). The claim
covers blocks of at least 20 characters and predicts one clause, but the
paragraph filter in the source is the strict `len(para) > 20`, so `extract`
returns zero clauses here. -/
theorem extract_twenty_char_block_cx :
    (∀ c ∈ ("aaaaaaaaaaaaaaaaaaaa" : String).data, c ≠ '\n') ∧
    (pyStrip "aaaaaaaaaaaaaaaaaaaa").length = 20 ∧
    extract "aaaaaaaaaaaaaaaaaaaa" = .ok [] :=
  ⟨by decide, by decide, by rfl⟩

/-- C5 amended: on a document that, after CRLF normalisation, has no
heading-shaped line (the header split returns the whole text as its only
section) and no blank-line paragraph break (the paragraph split returns
the whole text as its only paragraph) and is a single block of more than
20 characters after stripping, `extract` yields exactly one clause whose
text is the stripped document and whose header is that text truncated to
50 characters with an ellipsis marker appended when truncation occurred,
and equal to the full text when not. -/
theorem extract_single_block (text : String)
    (h1 : headerSplit (normalizeCRLF text) = [some (normalizeCRLF text)])
    (h2 : paraSplit (normalizeCRLF text) = [normalizeCRLF text])
    (h3 : 20 < (pyStrip (normalizeCRLF text)).length) :
    extract text = .ok
      [{ header := if 50 < (pyStrip (normalizeCRLF text)).length
                   then strTake (pyStrip (normalizeCRLF text)) 50 ++ "..."
                   else pyStrip (normalizeCRLF text),
         text := pyStrip (normalizeCRLF text),
         full_text := pyStrip (normalizeCRLF text),
         id := "clause_1",
         type := classify_clause (pyStrip (normalizeCRLF text)),
         word_count := word_count (pyStrip (normalizeCRLF text)) }] := by
  simp only [extract, h1, process_paragraphs, h2]
  simp [Except.map, List.filterMap_cons, h3, List.enum, List.enumFrom]
  rfl

/-- Witness for C5 at a concrete single-block document. -/
theorem extract_single_block_witness :
    headerSplit (normalizeCRLF "This is one single unbroken block of contract text with no newline in it.") =
      [some (normalizeCRLF "This is one single unbroken block of contract text with no newline in it.")] ∧
    paraSplit (normalizeCRLF "This is one single unbroken block of contract text with no newline in it.") =
      [normalizeCRLF "This is one single unbroken block of contract text with no newline in it."] ∧
    20 < (pyStrip (normalizeCRLF "This is one single unbroken block of contract text with no newline in it.")).length ∧
    extract "This is one single unbroken block of contract text with no newline in it." = .ok
      [{ header := if 50 < (pyStrip (normalizeCRLF "This is one single unbroken block of contract text with no newline in it.")).length
                   then strTake (pyStrip (normalizeCRLF "This is one single unbroken block of contract text with no newline in it.")) 50 ++ "..."
                   else pyStrip (normalizeCRLF "This is one single unbroken block of contract text with no newline in it."),
         text := pyStrip (normalizeCRLF "This is one single unbroken block of contract text with no newline in it."),
         full_text := pyStrip (normalizeCRLF "This is one single unbroken block of contract text with no newline in it."),
         id := "clause_1",
         type := classify_clause (pyStrip (normalizeCRLF "This is one single unbroken block of contract text with no newline in it.")),
         word_count := word_count (pyStrip (normalizeCRLF "This is one single unbroken block of contract text with no newline in it.")) }] :=
  ⟨by decide, by decide, by decide,
   extract_single_block "This is one single unbroken block of contract text with no newline in it."
     (by decide) (by decide) (by decide)⟩
